import Mathlib

/-!
Shallow embedding of `classification/models/vessel_characterization_6.py`.

The file under verification is configuration glue over an external deep
learning framework: a `Model` class exposing hyperparameters, an objectives
list, a model function dispatching on train/eval/predict mode, and input
stream factories.  Pure values (hyperparameters, the window-point
arithmetic) are embedded as Lean values; Python floats arising from exact
integer arithmetic are embedded as `Rat`; dictionaries become association
lists with Python dict semantics; framework dataset pipelines become an
inductive term recording which combinators were applied; the model function
becomes a pure function returning `Except`, with Python runtime failures
(failed assert, subscripting `None`) as explicit error values.

External collaborators (the metadata provider, the objectives module, the
feature-generation module, the base class) are repository code that is not
part of the source under `src/`; they are modelled from the specification
text, as marked on each such definition.
-/

namespace VesselCharacterization

/-- The float32 values produced in this file: NaN, or the conversion
`np.float32(x)` of a (non-empty) label string `x`.  The numeric parsing done
by numpy is kept abstract as the constructor `ofString`. -/
inductive F32 where
  | nan : F32
  | ofString : String → F32
deriving DecidableEq

/-- A Python scalar as it flows through `XOrNan.__call__`: the string looked
up from the metadata, or the float `np.nan` substituted for it. -/
inductive PyScalar where
  | str : String → PyScalar
  | nanFloat : PyScalar
deriving DecidableEq

/-- `np.float32(x)`: maps `np.nan` to float32 NaN and a label string to its
float32 conversion (kept abstract). -/
def np_float32 : PyScalar → F32
  | PyScalar.nanFloat => F32.nan
  | PyScalar.str s => F32.ofString s

/-- Vessel identifiers (mmsi values) are opaque here. -/
abbrev Mmsi := Nat

/-- Modelled from the spec: the metadata provider exposing per-vessel
labeled attributes.  Only the lookup `vessel_label(key, mmsi)` is used by
the source file; it yields the raw label string, with the empty string
standing for a missing label. -/
structure VesselMetadata where
  vessel_label : String → Mmsi → String

/-- `XOrNan(key)` applied to `mmsi` (the helper class defined inside
`Model.__init__`, closing over `vessel_metadata`):
`x = vessel_metadata.vessel_label(self.key, mmsi); if x == '': x = np.nan;
return np.float32(x)`. -/
def XOrNan (vessel_metadata : VesselMetadata) (key : String) (mmsi : Mmsi) : F32 :=
  let x : PyScalar := PyScalar.str (vessel_metadata.vessel_label key mmsi)
  let x : PyScalar :=
    if vessel_metadata.vessel_label key mmsi = "" then PyScalar.nanFloat else x
  np_float32 x

/-- Where an objective obtains its labels: a per-vessel label-extraction
function (the regression objectives), or the whole vessel metadata (the
multi-class objective). -/
inductive LabelSource where
  | fn : (Mmsi → F32) → LabelSource
  | fromMetadata : VesselMetadata → LabelSource

/-- Modelled from the spec: the objectives module exposes regression and
classification objective types; an objective is a named prediction task
bundling label extraction, loss computation, and metric computation.  The
constructor arguments recorded here are exactly those passed at the call
sites in `Model.__init__`; `create_loss`, `create_metrics` and `prediction`
are external contracts and are supplied as abstract functions where the
model function needs them.  `Met` is the opaque type of the `metrics`
argument threaded through. -/
structure Objective (Met : Type) where
  isRegressionMAE : Bool
  name : String
  metadata_label : String
  labelSource : LabelSource
  metrics : Met
  loss_weight : Rat

/-- Modelled from the spec: the `LogRegressionObjectiveMAE(name,
metadata_label, x_or_nan, metrics=..., loss_weight=...)` regression
objective constructor. -/
def LogRegressionObjectiveMAE (name metadata_label : String) (x_or_nan : Mmsi → F32)
    (metrics : Met) (loss_weight : Rat) : Objective Met :=
  ⟨true, name, metadata_label, LabelSource.fn x_or_nan, metrics, loss_weight⟩

/-- Modelled from the spec: the `MultiClassificationObjective(name,
metadata_label, vessel_metadata, metrics=..., loss_weight=...)` multi-class
classification objective constructor. -/
def MultiClassificationObjective (name metadata_label : String)
    (vessel_metadata : VesselMetadata) (metrics : Met) (loss_weight : Rat) :
    Objective Met :=
  ⟨false, name, metadata_label, LabelSource.fromMetadata vessel_metadata, metrics,
    loss_weight⟩

namespace Model

/-- Class attribute `window_size = 3`. -/
def window_size : Nat := 3

/-- Class attribute `feature_depths`. -/
def feature_depths : List Nat := [48, 64, 96, 128, 192, 256, 384, 512, 768]

/-- Class attribute `strides = [2] * 9`. -/
def strides : List Nat := List.replicate 9 2

/-- Class attribute `feature_sub_depths = 1024`. -/
def feature_sub_depths : Nat := 1024

/-- Class attribute `initial_learning_rate = 100e-5`. -/
def initial_learning_rate : Rat := 100 / 100000

/-- Class attribute `learning_decay_rate = 0.2`. -/
def learning_decay_rate : Rat := 2 / 10

/-- Class attribute `decay_examples = 100000`. -/
def decay_examples : Nat := 100000

/-- Class attribute `virtual_batch_size = 16`. -/
def virtual_batch_size : Nat := 16

/-- Property `number_of_steps`. -/
def number_of_steps : Nat := 700000

/-- Property `max_window_duration_seconds = 180 * 24 * 3600`. -/
def max_window_duration_seconds : Nat := 180 * 24 * 3600

/-- Property `batch_size`. -/
def batch_size : Nat := 128

/-- Property `min_viable_timeslice_length`. -/
def min_viable_timeslice_length : Nat := 500

/-- Python built-in `round` on an exact value: round half to even.  The
floats arising in `window_max_points` are exact dyadic rationals, so `Rat`
models them without error. -/
def pyRound (q : Rat) : Int :=
  let f : Int := ⌊q⌋
  let frac : Rat := q - (f : Rat)
  if frac < 1 / 2 then f
  else if 1 / 2 < frac then f + 1
  else if f % 2 = 0 then f else f + 1

/-- `np.prod` on a list of naturals. -/
def np_prod (l : List Nat) : Nat := l.foldl (fun a b => a * b) 1

/-- Property `window_max_points`:
`nominal_max_points = (max_window_duration_seconds / (5 * 60)) / 4`,
`layer_reductions = np.prod(strides)`,
`final_size = int(round(nominal_max_points / layer_reductions))`,
returns `final_size * layer_reductions`. -/
def window_max_points : Int :=
  let nominal_max_points : Rat := ((max_window_duration_seconds : Rat) / (5 * 60)) / 4
  let layer_reductions : Nat := np_prod strides
  let final_size : Int := pyRound (nominal_max_points / (layer_reductions : Rat))
  final_size * (layer_reductions : Int)

end Model

/-- `Model.training_objectives` as assigned in `Model.__init__`: four
regression objectives and one multi-class classification objective, in
source order. -/
def training_objectives (vessel_metadata : VesselMetadata) (metrics : Met) :
    List (Objective Met) :=
  [LogRegressionObjectiveMAE "length" "Vessel-length"
      (XOrNan vessel_metadata "length") metrics (1 / 10),
   LogRegressionObjectiveMAE "tonnage" "Vessel-tonnage"
      (XOrNan vessel_metadata "tonnage") metrics (1 / 10),
   LogRegressionObjectiveMAE "engine_power" "Vessel-engine-Power"
      (XOrNan vessel_metadata "engine_power") metrics (1 / 10),
   LogRegressionObjectiveMAE "crew_size" "Vessel-Crew-Size"
      (XOrNan vessel_metadata "crew_size") metrics (1 / 10),
   MultiClassificationObjective "Multiclass" "Vessel-class"
      vessel_metadata metrics 1]

/-- Python dict assignment `d[k] = v` on a dict represented as an
association list in insertion order: an existing key is updated in place,
a new key is appended. -/
def dictSet (d : List (String × A)) (k : String) (v : A) : List (String × A) :=
  if d.any (fun p => p.1 == k) then
    d.map (fun p => if p.1 == k then (k, v) else p)
  else d ++ [(k, v)]

/-- Python dict lookup `d[k]` (as an `Option`). -/
def dictGet (d : List (String × A)) (k : String) : Option A :=
  (d.find? (fun p => p.1 == k)).map (fun p => p.2)

/-- Python `d.update(e)`: each binding of `e` is assigned into `d` in
order. -/
def dictUpdate (d e : List (String × A)) : List (String × A) :=
  e.foldl (fun acc kv => dictSet acc kv.1 kv.2) d

/-- `Model.objective_map`: the dict comprehension
`{obj.name : obj for obj in self.training_objectives}`, built in iteration
order with later duplicates overriding. -/
def objective_map (vessel_metadata : VesselMetadata) (metrics : Met) :
    List (String × Objective Met) :=
  (training_objectives vessel_metadata metrics).foldl
    (fun d obj => dictSet d obj.name obj) []

/-- Python runtime failures that the model function can raise: subscripting
`None` labels (TypeError) and a failed `assert` (AssertionError). -/
inductive PyError where
  | typeError : PyError
  | assertionError : PyError
deriving DecidableEq

namespace ModeKeys

/-- `tf.estimator.ModeKeys.TRAIN`. -/
def TRAIN : String := "train"

/-- `tf.estimator.ModeKeys.EVAL`. -/
def EVAL : String := "eval"

/-- `tf.estimator.ModeKeys.PREDICT`. -/
def PREDICT : String := "infer"

end ModeKeys

/-- The `features` dict passed to the model function; the source reads
exactly the keys `mmsi`, `time_ranges`, `timestamps` and `features`.  `T` is
the opaque type of framework tensors. -/
structure Features (T : Type) where
  mmsi : T
  time_ranges : T
  timestamps : T
  features : T

/-- The learning-rate schedule node
`tf.train.exponential_decay(initial, global_step, decay_examples, rate)`,
recorded symbolically. -/
inductive LearningRate where
  | exponential_decay : Rat → Nat → Rat → LearningRate
deriving DecidableEq

/-- The graph op `optimizer.minimize(loss=total_loss, global_step=...)` of
the Adam optimizer, recorded by the loss it minimizes and the learning-rate
schedule of the optimizer. -/
structure TrainOp where
  minimized_loss : Rat
  learning_rate : LearningRate
deriving DecidableEq

/-- `tf.estimator.EstimatorSpec(...)`: only the fields the source passes.
Scalar loss tensors are embedded as `Rat`; metric ops as named rationals. -/
structure EstimatorSpec (T : Type) where
  mode : String
  predictions : Option (List (String × T))
  loss : Option Rat
  train_op : Option TrainOp
  eval_metric_ops : Option (List (String × Rat))

/-- `Model.make_model_fn`: returns the closure `_model_fn(features, labels,
mode, params)`.  The external per-objective contracts `create_loss`,
`create_metrics` and `prediction` are abstract parameters; `labels` is
`none` when the framework passes `labels=None` (predict serving), otherwise
the label dict, total on the objective names.  The body follows the source:
the PREDICT branch returns first; then the per-objective losses are
accumulated into `total_loss`; the TRAIN branch returns a spec with a train
op; then `assert mode == EVAL` fails on any remaining mode other than EVAL;
the EVAL branch returns a spec with metrics. -/
def make_model_fn (vessel_metadata : VesselMetadata) (metrics : Met)
    (create_loss : Objective Met → T → Rat)
    (create_metrics : Objective Met → T → List (String × Rat))
    (prediction : Objective Met → T) :
    Features T → Option (String → T) → String → Except PyError (EstimatorSpec T) :=
  fun features labels mode =>
    let objs := training_objectives vessel_metadata metrics
    let mmsis := features.mmsi
    let time_ranges := features.time_ranges
    let timestamps := features.timestamps
    if mode = ModeKeys.PREDICT then
      let preds : List (String × T) :=
        [("mmsi", mmsis), ("time_ranges", time_ranges), ("timestamps", timestamps)]
      let preds := objs.foldl (fun d obj => dictSet d obj.name (prediction obj)) preds
      Except.ok ⟨mode, some preds, none, none, none⟩
    else
      match labels with
      | none => Except.error PyError.typeError
      | some lbls =>
        let total_loss : Rat :=
          objs.foldl (fun acc obj => acc + create_loss obj (lbls obj.name)) 0
        let learning_rate := LearningRate.exponential_decay
          Model.initial_learning_rate Model.decay_examples Model.learning_decay_rate
        if mode = ModeKeys.TRAIN then
          Except.ok ⟨mode, none, some total_loss, some ⟨total_loss, learning_rate⟩, none⟩
        else if mode = ModeKeys.EVAL then
          let eval_metrics :=
            objs.foldl (fun d obj => dictUpdate d (create_metrics obj (lbls obj.name))) []
          Except.ok ⟨mode, none, some total_loss, none, some eval_metrics⟩
        else Except.error PyError.assertionError

/-- Modelled from the spec: train/test split membership markers
(`metadata.TRAINING_SPLIT`, `metadata.TEST_SPLIT` of the metadata
module). -/
inductive Split where
  | training : Split
  | test : Split
deriving DecidableEq

/-- `metadata.TRAINING_SPLIT`. -/
def TRAINING_SPLIT : Split := Split.training

/-- `metadata.TEST_SPLIT`. -/
def TEST_SPLIT : Split := Split.test

/-- Modelled from the spec: the file list built by the base class method
`self.build_training_file_list(base_feature_path, split)`, recorded by its
arguments. -/
inductive FileList where
  | build : String → Split → FileList
deriving DecidableEq

/-- The opaque range information forwarded to the prediction input
stream. -/
structure RangeInfo where
  tag : Nat
deriving DecidableEq

/-- A framework dataset pipeline, recorded as the term of combinators the
source applies.  The two sources are modelled from the spec: the external
feature-generation module exposes windowed-feature input-stream
constructors for training (`vessel_feature_generation.input_fn`) and
prediction (`vessel_feature_generation.predict_input_fn`); each source node
records the arguments the file passes to it. -/
inductive Dataset (Met : Type) where
  | inputSource : VesselMetadata → FileList → Nat → Nat → Int → Nat →
      List (Objective Met) → Nat → Dataset Met
  | predictSource : List String → Nat → RangeInfo → Int → Nat → Nat → Dataset Met
  | prefetch : Nat → Dataset Met → Dataset Met
  | shuffle : Nat → Dataset Met → Dataset Met
  | batch : Nat → Dataset Met → Dataset Met

/-- Whether a `prefetch` combinator occurs in the pipeline. -/
def hasPrefetch : Dataset Met → Bool
  | Dataset.inputSource _ _ _ _ _ _ _ _ => false
  | Dataset.predictSource _ _ _ _ _ _ => false
  | Dataset.prefetch _ _ => true
  | Dataset.shuffle _ d => hasPrefetch d
  | Dataset.batch _ d => hasPrefetch d

/-- Whether a `shuffle` combinator occurs in the pipeline. -/
def hasShuffle : Dataset Met → Bool
  | Dataset.inputSource _ _ _ _ _ _ _ _ => false
  | Dataset.predictSource _ _ _ _ _ _ => false
  | Dataset.prefetch _ d => hasShuffle d
  | Dataset.shuffle _ _ => true
  | Dataset.batch _ d => hasShuffle d

/-- Whether a `batch` combinator occurs in the pipeline. -/
def hasBatch : Dataset Met → Bool
  | Dataset.inputSource _ _ _ _ _ _ _ _ => false
  | Dataset.predictSource _ _ _ _ _ _ => false
  | Dataset.prefetch _ d => hasBatch d
  | Dataset.shuffle _ d => hasBatch d
  | Dataset.batch _ _ => true

/-- `Model.make_input_fn(base_feature_path, split, parallelism, prefetch)`:
returns `input_fn`, which builds the training-stream source from the
feature-generation module and applies
`.prefetch(prefetch).shuffle(prefetch).batch(self.batch_size)`.
`num_feature_dimensions` is the instance attribute set by the base class
constructor. -/
def make_input_fn (vessel_metadata : VesselMetadata) (metrics : Met)
    (num_feature_dimensions : Nat) (base_feature_path : String) (split : Split)
    (parallelism : Nat) (prefetch : Nat) : Unit → Dataset Met :=
  fun _ =>
    Dataset.batch Model.batch_size
      (Dataset.shuffle prefetch
        (Dataset.prefetch prefetch
          (Dataset.inputSource vessel_metadata
            (FileList.build base_feature_path split)
            (num_feature_dimensions + 1)
            Model.max_window_duration_seconds
            Model.window_max_points
            Model.min_viable_timeslice_length
            (training_objectives vessel_metadata metrics)
            parallelism)))

/-- `Model.make_training_input_fn(base_feature_path, parallelism,
prefetch=1024)`. -/
def make_training_input_fn (vessel_metadata : VesselMetadata) (metrics : Met)
    (num_feature_dimensions : Nat) (base_feature_path : String)
    (parallelism : Nat) (prefetch : Nat := 1024) : Unit → Dataset Met :=
  make_input_fn vessel_metadata metrics num_feature_dimensions base_feature_path
    TRAINING_SPLIT parallelism prefetch

/-- `Model.make_test_input_fn(base_feature_path, parallelism,
prefetch=1024)`. -/
def make_test_input_fn (vessel_metadata : VesselMetadata) (metrics : Met)
    (num_feature_dimensions : Nat) (base_feature_path : String)
    (parallelism : Nat) (prefetch : Nat := 1024) : Unit → Dataset Met :=
  make_input_fn vessel_metadata metrics num_feature_dimensions base_feature_path
    TEST_SPLIT parallelism prefetch

/-- `Model.make_prediction_input_fn(paths, range_info, parallelism)`:
returns `input_fn`, which builds the prediction-stream source and applies
`.batch(1)` only. -/
def make_prediction_input_fn (num_feature_dimensions : Nat) (paths : List String)
    (range_info : RangeInfo) (parallelism : Nat) : Unit → Dataset Met :=
  let time_ranges := range_info
  fun _ =>
    Dataset.batch 1
      (Dataset.predictSource paths
        (num_feature_dimensions + 1)
        time_ranges
        Model.window_max_points
        Model.min_viable_timeslice_length
        parallelism)

end VesselCharacterization

namespace VesselCharacterization

/-- A sample vessel metadata provider whose every label is missing, used to
instantiate the universally quantified theorems at a concrete input. -/
def vmEmpty : VesselMetadata := ⟨fun _ _ => ""⟩

/-- A sample vessel metadata provider whose every label is the string 42.5. -/
def vmConst : VesselMetadata := ⟨fun _ _ => "42.5"⟩

/-- C1 -/
theorem c1_window_max_points_multiple_of_stride_product :
    Model.window_max_points =
      Model.pyRound ((((Model.max_window_duration_seconds : Rat) / 300) / 4) /
          (Model.np_prod Model.strides : Rat)) * (Model.np_prod Model.strides : Int) ∧
    (Model.np_prod Model.strides : Int) ∣ Model.window_max_points := by
  have h : Model.np_prod Model.strides = 512 := by decide
  have hw : Model.window_max_points = 12800 := by
    norm_num [Model.window_max_points, Model.pyRound, Model.max_window_duration_seconds, h]
  constructor
  · rw [hw, h]
    norm_num [Model.pyRound, Model.max_window_duration_seconds]
  · rw [hw, h]
    norm_num

/-- C8 -/
theorem c8_window_max_points_value :
    Model.window_max_points = 12800 ∧
    ((Model.max_window_duration_seconds : Rat) / 300) / 4 = 12960 ∧
    Model.np_prod Model.strides = 512 ∧
    Model.pyRound ((12960 : Rat) / 512) = 25 := by
  have h : Model.np_prod Model.strides = 512 := by decide
  refine ⟨?_, ?_, h, ?_⟩
  · norm_num [Model.window_max_points, Model.pyRound, Model.max_window_duration_seconds, h]
  · norm_num [Model.max_window_duration_seconds]
  · norm_num [Model.pyRound]

/-- C3 -/
theorem c3_XOrNan_empty_is_nan (vessel_metadata : VesselMetadata) (key : String)
    (mmsi : Mmsi) :
    (vessel_metadata.vessel_label key mmsi = "" →
      XOrNan vessel_metadata key mmsi = F32.nan) ∧
    (vessel_metadata.vessel_label key mmsi ≠ "" →
      XOrNan vessel_metadata key mmsi =
        F32.ofString (vessel_metadata.vessel_label key mmsi)) := by
  constructor <;> intro h <;> simp [XOrNan, np_float32, h]

/-- C3 witness -/
theorem c3_XOrNan_empty_is_nan_witness :
    XOrNan vmEmpty "length" 7 = F32.nan ∧
    XOrNan vmConst "length" 7 = F32.ofString "42.5" :=
  ⟨(c3_XOrNan_empty_is_nan vmEmpty "length" 7).1 rfl,
   (c3_XOrNan_empty_is_nan vmConst "length" 7).2 (by decide)⟩

/-- C5 -/
theorem c5_training_objectives_exactly_five (Met : Type)
    (vessel_metadata : VesselMetadata) (metrics : Met) :
    (training_objectives vessel_metadata metrics).length = 5 ∧
    (training_objectives vessel_metadata metrics).map
        (fun o => (o.name, o.isRegressionMAE, o.loss_weight)) =
      [("length", true, 1 / 10), ("tonnage", true, 1 / 10),
       ("engine_power", true, 1 / 10), ("crew_size", true, 1 / 10),
       ("Multiclass", false, 1)] ∧
    (training_objectives vessel_metadata metrics).map (fun o => o.labelSource) =
      [LabelSource.fn (XOrNan vessel_metadata "length"),
       LabelSource.fn (XOrNan vessel_metadata "tonnage"),
       LabelSource.fn (XOrNan vessel_metadata "engine_power"),
       LabelSource.fn (XOrNan vessel_metadata "crew_size"),
       LabelSource.fromMetadata vessel_metadata] ∧
    (training_objectives vessel_metadata metrics).map (fun o => o.metadata_label) =
      ["Vessel-length", "Vessel-tonnage", "Vessel-engine-Power", "Vessel-Crew-Size",
       "Vessel-class"] :=
  ⟨rfl, rfl, rfl, rfl⟩

/-- C10 -/
theorem c10_objective_map_lookup (Met : Type)
    (vessel_metadata : VesselMetadata) (metrics : Met) :
    (objective_map vessel_metadata metrics).length = 5 ∧
    (objective_map vessel_metadata metrics).map (fun p => p.1) =
      ["length", "tonnage", "engine_power", "crew_size", "Multiclass"] ∧
    ((training_objectives vessel_metadata metrics).map (fun o => o.name)).Nodup ∧
    ∀ obj ∈ training_objectives vessel_metadata metrics,
      dictGet (objective_map vessel_metadata metrics) obj.name = some obj := by
  have hnames : (training_objectives vessel_metadata metrics).map (fun o => o.name) =
      ["length", "tonnage", "engine_power", "crew_size", "Multiclass"] := rfl
  refine ⟨rfl, rfl, by rw [hnames]; decide, ?_⟩
  intro obj h
  simp only [training_objectives, List.mem_cons, List.not_mem_nil, or_false] at h
  rcases h with rfl | rfl | rfl | rfl | rfl <;> rfl

/-- C10 witness -/
theorem c10_objective_map_lookup_witness :
    dictGet (objective_map vmEmpty ()) "length" =
      some (LogRegressionObjectiveMAE "length" "Vessel-length"
        (XOrNan vmEmpty "length") () (1 / 10)) :=
  (c10_objective_map_lookup Unit vmEmpty ()).2.2.2
    (LogRegressionObjectiveMAE "length" "Vessel-length"
      (XOrNan vmEmpty "length") () (1 / 10))
    (by simp [training_objectives])

end VesselCharacterization

namespace VesselCharacterization

/-- C2 -/
theorem c2_mode_dispatch_exhaustive_over_three (Met T : Type)
    (vessel_metadata : VesselMetadata) (metrics : Met)
    (create_loss : Objective Met → T → Rat)
    (create_metrics : Objective Met → T → List (String × Rat))
    (prediction : Objective Met → T)
    (features : Features T) (lbls : String → T) (mode : String) :
    ((mode = ModeKeys.TRAIN ∨ mode = ModeKeys.EVAL ∨ mode = ModeKeys.PREDICT) →
      ∃ spec, make_model_fn vessel_metadata metrics create_loss create_metrics
          prediction features (some lbls) mode = Except.ok spec) ∧
    (mode ≠ ModeKeys.TRAIN → mode ≠ ModeKeys.EVAL → mode ≠ ModeKeys.PREDICT →
      make_model_fn vessel_metadata metrics create_loss create_metrics
          prediction features (some lbls) mode = Except.error PyError.assertionError) := by
  constructor
  · rintro (rfl | rfl | rfl)
    · exact ⟨_, rfl⟩
    · exact ⟨_, rfl⟩
    · exact ⟨_, rfl⟩
  · intro h1 h2 h3
    simp [make_model_fn, h1, h2, h3]

/-- C2 witness -/
theorem c2_mode_dispatch_exhaustive_over_three_witness :
    (∃ spec, make_model_fn vmEmpty ()
        (fun (_ : Objective Unit) (_ : Unit) => (0 : Rat))
        (fun (_ : Objective Unit) (_ : Unit) => ([] : List (String × Rat)))
        (fun (_ : Objective Unit) => ())
        ⟨(), (), (), ()⟩ (some (fun _ => ())) "train" = Except.ok spec) ∧
    make_model_fn vmEmpty ()
        (fun (_ : Objective Unit) (_ : Unit) => (0 : Rat))
        (fun (_ : Objective Unit) (_ : Unit) => ([] : List (String × Rat)))
        (fun (_ : Objective Unit) => ())
        ⟨(), (), (), ()⟩ (some (fun _ => ())) "serve" =
      Except.error PyError.assertionError :=
  ⟨(c2_mode_dispatch_exhaustive_over_three Unit Unit vmEmpty () _ _ _ _ _ "train").1
      (Or.inl rfl),
   (c2_mode_dispatch_exhaustive_over_three Unit Unit vmEmpty () _ _ _ _ _ "serve").2
      (by decide) (by decide) (by decide)⟩

/-- C6 -/
theorem c6_total_loss_is_sum_over_objectives (Met T : Type)
    (vessel_metadata : VesselMetadata) (metrics : Met)
    (create_loss : Objective Met → T → Rat)
    (create_metrics : Objective Met → T → List (String × Rat))
    (prediction : Objective Met → T)
    (features : Features T) (lbls : String → T) (mode : String)
    (h : mode = ModeKeys.TRAIN ∨ mode = ModeKeys.EVAL) :
    ∃ spec, make_model_fn vessel_metadata metrics create_loss create_metrics
        prediction features (some lbls) mode = Except.ok spec ∧
      spec.loss = some
        (((training_objectives vessel_metadata metrics).map
            (fun obj => create_loss obj (lbls obj.name))).sum) := by
  rcases h with rfl | rfl
  · refine ⟨_, rfl, ?_⟩
    simp only [make_model_fn, training_objectives, LogRegressionObjectiveMAE,
      MultiClassificationObjective, List.foldl, List.map, List.sum_cons, List.sum_nil,
      Option.some.injEq]
    ring
  · refine ⟨_, rfl, ?_⟩
    simp only [make_model_fn, training_objectives, LogRegressionObjectiveMAE,
      MultiClassificationObjective, List.foldl, List.map, List.sum_cons, List.sum_nil,
      Option.some.injEq]
    ring

/-- C6 witness -/
theorem c6_total_loss_is_sum_over_objectives_witness :
    ∃ spec, make_model_fn vmEmpty ()
        (fun (_ : Objective Unit) (_ : Unit) => (1 : Rat))
        (fun (_ : Objective Unit) (_ : Unit) => ([] : List (String × Rat)))
        (fun (_ : Objective Unit) => ())
        ⟨(), (), (), ()⟩ (some (fun _ => ())) "train" = Except.ok spec ∧
      spec.loss = some
        (((training_objectives vmEmpty ()).map
            (fun obj => (fun (_ : Objective Unit) (_ : Unit) => (1 : Rat)) obj
              ((fun _ => ()) obj.name))).sum) :=
  c6_total_loss_is_sum_over_objectives Unit Unit vmEmpty () _ _ _ _ _ "train"
    (Or.inl rfl)

end VesselCharacterization

namespace VesselCharacterization

/-- C9 -/
theorem c9_predict_branch_ignores_labels (Met T : Type)
    (vessel_metadata : VesselMetadata) (metrics : Met)
    (create_loss : Objective Met → T → Rat)
    (create_metrics : Objective Met → T → List (String × Rat))
    (prediction : Objective Met → T)
    (features : Features T) (labels : Option (String → T)) :
    make_model_fn vessel_metadata metrics create_loss create_metrics prediction
        features labels ModeKeys.PREDICT =
      Except.ok ⟨ModeKeys.PREDICT,
        some [("mmsi", features.mmsi), ("time_ranges", features.time_ranges),
          ("timestamps", features.timestamps),
          ("length", prediction (LogRegressionObjectiveMAE "length" "Vessel-length"
            (XOrNan vessel_metadata "length") metrics (1 / 10))),
          ("tonnage", prediction (LogRegressionObjectiveMAE "tonnage" "Vessel-tonnage"
            (XOrNan vessel_metadata "tonnage") metrics (1 / 10))),
          ("engine_power", prediction (LogRegressionObjectiveMAE "engine_power"
            "Vessel-engine-Power" (XOrNan vessel_metadata "engine_power") metrics (1 / 10))),
          ("crew_size", prediction (LogRegressionObjectiveMAE "crew_size"
            "Vessel-Crew-Size" (XOrNan vessel_metadata "crew_size") metrics (1 / 10))),
          ("Multiclass", prediction (MultiClassificationObjective "Multiclass"
            "Vessel-class" vessel_metadata metrics 1))],
        none, none, none⟩ := by
  rfl

/-- C7 -/
theorem c7_training_and_test_factories_specialize_generic (Met : Type)
    (vessel_metadata : VesselMetadata) (metrics : Met)
    (num_feature_dimensions : Nat) (base_feature_path : String)
    (parallelism pf : Nat) :
    make_training_input_fn vessel_metadata metrics num_feature_dimensions
        base_feature_path parallelism pf =
      make_input_fn vessel_metadata metrics num_feature_dimensions
        base_feature_path TRAINING_SPLIT parallelism pf ∧
    make_test_input_fn vessel_metadata metrics num_feature_dimensions
        base_feature_path parallelism pf =
      make_input_fn vessel_metadata metrics num_feature_dimensions
        base_feature_path TEST_SPLIT parallelism pf ∧
    make_training_input_fn vessel_metadata metrics num_feature_dimensions
        base_feature_path parallelism =
      make_input_fn vessel_metadata metrics num_feature_dimensions
        base_feature_path TRAINING_SPLIT parallelism 1024 ∧
    make_test_input_fn vessel_metadata metrics num_feature_dimensions
        base_feature_path parallelism =
      make_input_fn vessel_metadata metrics num_feature_dimensions
        base_feature_path TEST_SPLIT parallelism 1024 :=
  ⟨rfl, rfl, rfl, rfl⟩

/-- C4 counterexample -/
theorem c4_prediction_stream_not_shuffled_counterexample :
    ¬(hasShuffle (@make_prediction_input_fn Unit 9 ["gs"] ⟨0⟩ 4 ()) = true ∧
      hasPrefetch (@make_prediction_input_fn Unit 9 ["gs"] ⟨0⟩ 4 ()) = true) := by
  decide

/-- C4 amended -/
theorem c4_amended_pipeline_shapes (Met : Type)
    (vessel_metadata : VesselMetadata) (metrics : Met)
    (num_feature_dimensions : Nat) (base_feature_path : String) (split : Split)
    (parallelism pf : Nat) (paths : List String) (range_info : RangeInfo)
    (parallelism2 : Nat) :
    make_input_fn vessel_metadata metrics num_feature_dimensions base_feature_path
        split parallelism pf () =
      Dataset.batch Model.batch_size
        (Dataset.shuffle pf
          (Dataset.prefetch pf
            (Dataset.inputSource vessel_metadata
              (FileList.build base_feature_path split)
              (num_feature_dimensions + 1)
              Model.max_window_duration_seconds
              Model.window_max_points
              Model.min_viable_timeslice_length
              (training_objectives vessel_metadata metrics)
              parallelism))) ∧
    hasBatch (make_input_fn vessel_metadata metrics num_feature_dimensions
        base_feature_path split parallelism pf ()) = true ∧
    hasShuffle (make_input_fn vessel_metadata metrics num_feature_dimensions
        base_feature_path split parallelism pf ()) = true ∧
    hasPrefetch (make_input_fn vessel_metadata metrics num_feature_dimensions
        base_feature_path split parallelism pf ()) = true ∧
    @make_prediction_input_fn Met num_feature_dimensions paths range_info parallelism2 () =
      Dataset.batch 1
        (Dataset.predictSource paths (num_feature_dimensions + 1) range_info
          Model.window_max_points Model.min_viable_timeslice_length parallelism2) ∧
    hasBatch (@make_prediction_input_fn Met num_feature_dimensions paths range_info
        parallelism2 ()) = true ∧
    hasShuffle (@make_prediction_input_fn Met num_feature_dimensions paths range_info
        parallelism2 ()) = false ∧
    hasPrefetch (@make_prediction_input_fn Met num_feature_dimensions paths range_info
        parallelism2 ()) = false :=
  ⟨rfl, rfl, rfl, rfl, rfl, rfl, rfl, rfl⟩

end VesselCharacterization
